import Mathlib

/-!
Verification of the soul-sync-flow blueprint engine
(`supabase/functions/python-blueprint-engine/`).

The Python source is shallowly embedded: pure functions become Lean
functions on `Nat` / `Int` / `ℚ`, Python `%` on integers is `Int.emod`
(both return a representative in `[0, b)` for a positive modulus `b`),
Python list indexing that can raise `IndexError` is modelled with
`Option`, and calls to external services and libraries (nominatim,
geonames, swisseph, hdkit, `datetime` subtraction) are passed in as
oracle parameters, since their code is not part of this repository.
-/


/-- Sum of the decimal digits of `n`, as computed by the Python idiom
`sum(int(d) for d in str(n))` used in `get_facts.py` (`life_path`) and
`index.py` (`reduce_single_digit`, `calculate_life_path_number`). The
loop is bounded by a fuel argument (`n` itself suffices, since
`n / 10 < n` for `n` at least 10); `digitSum_unfold` recovers the
defining equation, which is fuel-free. -/
def digitSumAux : Nat → Nat → Nat
  | 0, n => n
  | fuel + 1, n => if n < 10 then n else digitSumAux fuel (n / 10) + n % 10

def digitSum (n : Nat) : Nat := digitSumAux n n

theorem digitSumAux_congr : ∀ n fuel fuel2, n ≤ fuel → n ≤ fuel2 →
    digitSumAux fuel n = digitSumAux fuel2 n := by
  intro n
  induction n using Nat.strong_induction_on with
  | _ n ih =>
    intro fuel fuel2 h h2
    cases fuel with
    | zero =>
      have hn : n = 0 := by omega
      subst hn
      cases fuel2 with
      | zero => rfl
      | succ f2 => simp [digitSumAux]
    | succ f =>
      cases fuel2 with
      | zero =>
        have hn : n = 0 := by omega
        subst hn
        simp [digitSumAux]
      | succ f2 =>
        simp only [digitSumAux]
        by_cases hc : n < 10
        · rw [if_pos hc, if_pos hc]
        · rw [if_neg hc, if_neg hc]
          have hrec : digitSumAux f (n / 10) = digitSumAux f2 (n / 10) :=
            ih (n / 10) (by omega) f f2 (by omega) (by omega)
          omega

theorem digitSum_unfold (n : Nat) :
    digitSum n = if n < 10 then n else digitSum (n / 10) + n % 10 := by
  by_cases hc : n < 10
  · rw [if_pos hc]
    cases n with
    | zero => rfl
    | succ m =>
      show digitSumAux (m + 1) (m + 1) = m + 1
      simp only [digitSumAux]
      rw [if_pos hc]
  · rw [if_neg hc]
    cases n with
    | zero => omega
    | succ m =>
      show digitSumAux (m + 1) (m + 1) = digitSum ((m + 1) / 10) + (m + 1) % 10
      simp only [digitSumAux]
      rw [if_neg hc]
      have hrec : digitSumAux m ((m + 1) / 10) =
          digitSumAux ((m + 1) / 10) ((m + 1) / 10) :=
        digitSumAux_congr ((m + 1) / 10) m ((m + 1) / 10) (by omega) (by omega)
      rw [hrec]
      rfl

theorem digitSum_le (n : Nat) : digitSum n ≤ n := by
  induction n using Nat.strong_induction_on with
  | _ n ih =>
    rw [digitSum_unfold]
    by_cases h : n < 10
    · rw [if_pos h]
    · rw [if_neg h]
      have h1 : n / 10 < n := by omega
      have h2 := ih (n / 10) h1
      have h3 := Nat.div_add_mod n 10
      omega

theorem digitSum_lt (n : Nat) (h : 10 ≤ n) : digitSum n < n := by
  rw [digitSum_unfold]
  rw [if_neg (by omega)]
  have h2 := digitSum_le (n / 10)
  have h3 := Nat.div_add_mod n 10
  have h4 : n % 10 < 10 := Nat.mod_lt n (by omega)
  omega

/-- `reduce_single_digit` from `index.py` (lines 295-312): repeatedly
replaces `num` by its digit sum while it has more than one digit and is
not one of the master numbers 11, 22, 33. Fuel-bounded as above
(`digitSum num < num` whenever the loop continues);
`reduce_single_digit_unfold` recovers the fuel-free defining equation of
the Python loop. -/
def reduce_single_digit_aux : Nat → Nat → Nat
  | 0, num => num
  | fuel + 1, num =>
    if 10 ≤ num ∧ num ≠ 11 ∧ num ≠ 22 ∧ num ≠ 33 then
      reduce_single_digit_aux fuel (digitSum num)
    else num

def reduce_single_digit (num : Nat) : Nat := reduce_single_digit_aux num num

theorem reduce_single_digit_aux_congr : ∀ num fuel fuel2, num ≤ fuel →
    num ≤ fuel2 → reduce_single_digit_aux fuel num =
      reduce_single_digit_aux fuel2 num := by
  intro num
  induction num using Nat.strong_induction_on with
  | _ num ih =>
    intro fuel fuel2 h h2
    cases fuel with
    | zero =>
      have hn : num = 0 := by omega
      subst hn
      cases fuel2 with
      | zero => rfl
      | succ f2 => simp [reduce_single_digit_aux]
    | succ f =>
      cases fuel2 with
      | zero =>
        have hn : num = 0 := by omega
        subst hn
        simp [reduce_single_digit_aux]
      | succ f2 =>
        simp only [reduce_single_digit_aux]
        by_cases hc : 10 ≤ num ∧ num ≠ 11 ∧ num ≠ 22 ∧ num ≠ 33
        · rw [if_pos hc, if_pos hc]
          have hlt := digitSum_lt num hc.1
          exact ih (digitSum num) (by omega) f f2 (by omega) (by omega)
        · rw [if_neg hc, if_neg hc]

theorem reduce_single_digit_unfold (num : Nat) :
    reduce_single_digit num =
      if 10 ≤ num ∧ num ≠ 11 ∧ num ≠ 22 ∧ num ≠ 33 then
        reduce_single_digit (digitSum num)
      else num := by
  by_cases hc : 10 ≤ num ∧ num ≠ 11 ∧ num ≠ 22 ∧ num ≠ 33
  · rw [if_pos hc]
    cases num with
    | zero => omega
    | succ m =>
      show reduce_single_digit_aux (m + 1) (m + 1) = _
      simp only [reduce_single_digit_aux]
      rw [if_pos hc]
      have hlt := digitSum_lt (m + 1) hc.1
      exact reduce_single_digit_aux_congr (digitSum (m + 1)) m
        (digitSum (m + 1)) (by omega) (by omega)
  · rw [if_neg hc]
    cases num with
    | zero => rfl
    | succ m =>
      show reduce_single_digit_aux (m + 1) (m + 1) = m + 1
      simp only [reduce_single_digit_aux]
      rw [if_neg hc]

/-- The `while` loop of `life_path` in `get_facts.py` (lines 31-32):
`while total > 9 and total not in (11, 22, 33): total = digit sum`,
fuel-bounded as above; `life_path_reduce_unfold` recovers the fuel-free
defining equation of the loop. -/
def life_path_reduce_aux : Nat → Nat → Nat
  | 0, total => total
  | fuel + 1, total =>
    if 9 < total ∧ total ≠ 11 ∧ total ≠ 22 ∧ total ≠ 33 then
      life_path_reduce_aux fuel (digitSum total)
    else total

def life_path_reduce (total : Nat) : Nat := life_path_reduce_aux total total

theorem life_path_reduce_aux_congr : ∀ total fuel fuel2, total ≤ fuel →
    total ≤ fuel2 → life_path_reduce_aux fuel total =
      life_path_reduce_aux fuel2 total := by
  intro total
  induction total using Nat.strong_induction_on with
  | _ total ih =>
    intro fuel fuel2 h h2
    cases fuel with
    | zero =>
      have hn : total = 0 := by omega
      subst hn
      cases fuel2 with
      | zero => rfl
      | succ f2 => simp [life_path_reduce_aux]
    | succ f =>
      cases fuel2 with
      | zero =>
        have hn : total = 0 := by omega
        subst hn
        simp [life_path_reduce_aux]
      | succ f2 =>
        simp only [life_path_reduce_aux]
        by_cases hc : 9 < total ∧ total ≠ 11 ∧ total ≠ 22 ∧ total ≠ 33
        · rw [if_pos hc, if_pos hc]
          have hlt := digitSum_lt total (by omega)
          exact ih (digitSum total) (by omega) f f2 (by omega) (by omega)
        · rw [if_neg hc, if_neg hc]

theorem life_path_reduce_unfold (total : Nat) :
    life_path_reduce total =
      if 9 < total ∧ total ≠ 11 ∧ total ≠ 22 ∧ total ≠ 33 then
        life_path_reduce (digitSum total)
      else total := by
  by_cases hc : 9 < total ∧ total ≠ 11 ∧ total ≠ 22 ∧ total ≠ 33
  · rw [if_pos hc]
    cases total with
    | zero => omega
    | succ m =>
      show life_path_reduce_aux (m + 1) (m + 1) = _
      simp only [life_path_reduce_aux]
      rw [if_pos hc]
      have hlt := digitSum_lt (m + 1) (by omega)
      exact life_path_reduce_aux_congr (digitSum (m + 1)) m
        (digitSum (m + 1)) (by omega) (by omega)
  · rw [if_neg hc]
    cases total with
    | zero => rfl
    | succ m =>
      show life_path_reduce_aux (m + 1) (m + 1) = m + 1
      simp only [life_path_reduce_aux]
      rw [if_neg hc]

/-- Local civil birth datetime, the result of
`datetime.strptime(f"{date_str} {time_str}", "%Y-%m-%d %H:%M")` in
`build_fact_json`; a successful parse yields exactly these five fields. -/
structure LocalDT where
  year : Nat
  month : Nat
  day : Nat
  hour : Nat
  minute : Nat

/-- `life_path` from `get_facts.py` (lines 28-33): sums all digits of the
`date.strftime("%Y%m%d")` rendering (zero padding contributes nothing, so
the digit sum of the string equals the sum of the digit sums of the year,
month and day fields), then applies the master-number-aware loop. -/
def life_path (d : LocalDT) : Nat :=
  life_path_reduce (digitSum d.year + digitSum d.month + digitSum d.day)

/-- `calculate_life_path_number` from `index.py` (lines 264-293): reduces
day, month, and the digit sum of the year each with `reduce_single_digit`,
sums the three component results, keeps the total if it is a master
number, and otherwise reduces it with `reduce_single_digit`. -/
def calculate_life_path_number (day month year : Nat) : Nat :=
  let day_sum := reduce_single_digit day
  let month_sum := reduce_single_digit month
  let year_sum := reduce_single_digit (digitSum year)
  let total_sum := day_sum + month_sum + year_sum
  if total_sum = 11 ∨ total_sum = 22 ∨ total_sum = 33 then total_sum
  else reduce_single_digit total_sum

/-- The reduction rule in the words of the spec (section 4.4), for
comparison with the source functions: reduce to a single digit via
repeated digit-summing unless an intermediate sum equals 11, 22 or 33,
in which case reduction stops there (fuel-bounded like the source
loops). -/
def masterAwareReduceAux : Nat → Nat → Nat
  | 0, n => n
  | fuel + 1, n =>
    if n ≤ 9 ∨ n = 11 ∨ n = 22 ∨ n = 33 then n
    else masterAwareReduceAux fuel (digitSum n)

def masterAwareReduce (n : Nat) : Nat := masterAwareReduceAux n n

theorem masterAwareReduceAux_congr : ∀ n fuel fuel2, n ≤ fuel →
    n ≤ fuel2 → masterAwareReduceAux fuel n = masterAwareReduceAux fuel2 n := by
  intro n
  induction n using Nat.strong_induction_on with
  | _ n ih =>
    intro fuel fuel2 h h2
    cases fuel with
    | zero =>
      have hn : n = 0 := by omega
      subst hn
      cases fuel2 with
      | zero => rfl
      | succ f2 => simp [masterAwareReduceAux]
    | succ f =>
      cases fuel2 with
      | zero =>
        have hn : n = 0 := by omega
        subst hn
        simp [masterAwareReduceAux]
      | succ f2 =>
        simp only [masterAwareReduceAux]
        by_cases hc : n ≤ 9 ∨ n = 11 ∨ n = 22 ∨ n = 33
        · rw [if_pos hc, if_pos hc]
        · rw [if_neg hc, if_neg hc]
          have hlt := digitSum_lt n (by omega)
          exact ih (digitSum n) (by omega) f f2 (by omega) (by omega)

theorem masterAwareReduce_unfold (n : Nat) :
    masterAwareReduce n =
      if n ≤ 9 ∨ n = 11 ∨ n = 22 ∨ n = 33 then n
      else masterAwareReduce (digitSum n) := by
  by_cases hc : n ≤ 9 ∨ n = 11 ∨ n = 22 ∨ n = 33
  · rw [if_pos hc]
    cases n with
    | zero => rfl
    | succ m =>
      show masterAwareReduceAux (m + 1) (m + 1) = m + 1
      simp only [masterAwareReduceAux]
      rw [if_pos hc]
  · rw [if_neg hc]
    cases n with
    | zero => omega
    | succ m =>
      show masterAwareReduceAux (m + 1) (m + 1) = _
      simp only [masterAwareReduceAux]
      rw [if_neg hc]
      have hlt := digitSum_lt (m + 1) (by omega)
      exact masterAwareReduceAux_congr (digitSum (m + 1)) m
        (digitSum (m + 1)) (by omega) (by omega)

/-- The life-path algorithm in the words of the spec (section 4.4), for
comparison with `calculate_life_path_number`: reduce day, month, and the
digit-sum of the year each independently, sum the three components, then
apply the same reduction rule to the total. -/
def lifePathSpec (day month year : Nat) : Nat :=
  masterAwareReduce
    (masterAwareReduce day + masterAwareReduce month +
      masterAwareReduce (digitSum year))

theorem reduce_single_digit_eq_self (n : Nat)
    (h : n < 10 ∨ n = 11 ∨ n = 22 ∨ n = 33) : reduce_single_digit n = n := by
  rw [reduce_single_digit_unfold]
  rw [if_neg (by omega)]

theorem life_path_reduce_eq_self (n : Nat)
    (h : n < 10 ∨ n = 11 ∨ n = 22 ∨ n = 33) : life_path_reduce n = n := by
  rw [life_path_reduce_unfold]
  rw [if_neg (by omega)]

theorem reduce_single_digit_eq_spec (n : Nat) :
    reduce_single_digit n = masterAwareReduce n := by
  induction n using Nat.strong_induction_on with
  | _ n ih =>
    rw [reduce_single_digit_unfold, masterAwareReduce_unfold]
    by_cases hc : 10 ≤ n ∧ n ≠ 11 ∧ n ≠ 22 ∧ n ≠ 33
    · rw [if_pos hc, if_neg (by omega)]
      exact ih (digitSum n) (digitSum_lt n hc.1)
    · rw [if_neg hc, if_pos (by omega)]

theorem calculate_life_path_eq_spec (d m y : Nat) :
    calculate_life_path_number d m y = lifePathSpec d m y := by
  unfold calculate_life_path_number lifePathSpec
  rw [reduce_single_digit_eq_spec d, reduce_single_digit_eq_spec m,
    reduce_single_digit_eq_spec (digitSum y)]
  by_cases hm : masterAwareReduce d + masterAwareReduce m +
      masterAwareReduce (digitSum y) = 11 ∨
      masterAwareReduce d + masterAwareReduce m +
      masterAwareReduce (digitSum y) = 22 ∨
      masterAwareReduce d + masterAwareReduce m +
      masterAwareReduce (digitSum y) = 33
  · rw [if_pos hm]
    conv_rhs => rw [masterAwareReduce_unfold]
    rw [if_pos (by omega)]
  · rw [if_neg hm, reduce_single_digit_eq_spec]

/-- C1: the canonical life-path computation (`calculate_life_path_number`)
reduces day, month, and the digit-sum of the year each independently with
the master-number-aware reduction, sums the three components, applies the
same rule to the total, and never reduces a master number further; for
1990-01-01 the component sums are 1, 1, 1 and the life path is 3 (as is
the value of `life_path` in `get_facts.py` on that date). -/
theorem C1_life_path_canonical :
    (∀ day month year : Nat,
      calculate_life_path_number day month year = lifePathSpec day month year) ∧
    reduce_single_digit 11 = 11 ∧ reduce_single_digit 22 = 22 ∧
    reduce_single_digit 33 = 33 ∧
    reduce_single_digit 1 = 1 ∧ reduce_single_digit 1 = 1 ∧
    reduce_single_digit (digitSum 1990) = 1 ∧
    calculate_life_path_number 1 1 1990 = 3 ∧
    life_path (LocalDT.mk 1990 1 1 0 0) = 3 :=
  ⟨calculate_life_path_eq_spec, by decide, by decide, by decide, by decide,
    by decide, by decide, by decide, by decide⟩
/-- C8: the master-number-aware reduction is idempotent on its result set:
for every n in the set of single digits and master numbers, applying the
reduction (either implementation) to n returns n itself. -/
theorem C8_reduction_idempotent (n : Nat)
    (h : n ∈ [1, 2, 3, 4, 5, 6, 7, 8, 9, 11, 22, 33]) :
    reduce_single_digit n = n ∧ life_path_reduce n = n := by
  have hn : n < 10 ∨ n = 11 ∨ n = 22 ∨ n = 33 := by
    simp only [List.mem_cons, List.not_mem_nil, or_false] at h
    omega
  exact ⟨reduce_single_digit_eq_self n hn, life_path_reduce_eq_self n hn⟩

theorem C8_witness :
    22 ∈ [1, 2, 3, 4, 5, 6, 7, 8, 9, 11, 22, 33] ∧
    (reduce_single_digit 22 = 22 ∧ life_path_reduce 22 = 22) :=
  ⟨by decide, C8_reduction_idempotent 22 (by decide)⟩

/-- The 12-animal table shared by `chinese_zodiac` (`get_facts.py`) and
`calculate_chinese_zodiac` (`index.py`). -/
def cz_animals : List String :=
  ["Rat", "Ox", "Tiger", "Rabbit", "Dragon", "Snake",
   "Horse", "Goat", "Monkey", "Rooster", "Dog", "Pig"]

/-- The doubled 10-entry element table of `chinese_zodiac` in
`get_facts.py` (lines 38-39). -/
def cz_elements10 : List String :=
  ["Wood", "Wood", "Fire", "Fire", "Earth", "Earth",
   "Metal", "Metal", "Water", "Water"]

/-- The 5-entry element table of `calculate_chinese_zodiac` in `index.py`
(line 579). -/
def cz_elements5 : List String := ["Wood", "Fire", "Earth", "Metal", "Water"]

structure ChineseZodiacResult where
  animal : String
  element : String
  yin_yang : String

/-- `chinese_zodiac` from `get_facts.py` (lines 35-45), as a function of
the year (the only field of the date it reads). The list indices are
Python `%`, i.e. `Int.emod`, and are proved in range in C3, so the
`getD` default is never used. -/
def chinese_zodiac_year (y : Int) : ChineseZodiacResult :=
  { animal := cz_animals.getD ((y - 4) % 12).toNat ("")
    element := cz_elements10.getD ((y - 4) % 10).toNat ("")
    yin_yang := if y % 2 = 0 then ("Yang") else ("Yin") }

/-- `chinese_zodiac` applied to a parsed datetime: it reads `date.year`. -/
def chinese_zodiac (d : LocalDT) : ChineseZodiacResult :=
  chinese_zodiac_year (d.year : Int)

/-- The element computation of `calculate_chinese_zodiac` in `index.py`
(lines 578-582): `element_index = ((year - 4) % 10) // 2` into the
5-entry table (the index is nonnegative, so `//` is Nat division). -/
def calculate_chinese_zodiac_element (y : Int) : String :=
  cz_elements5.getD (((y - 4) % 10).toNat / 2) ("")

/-- C3: for every year the Chinese zodiac computation is total with both
indices in range; the animal has period 12 anchored so that years
congruent to 4 mod 12 give Rat; the element has period 10 and each
element spans two consecutive years; the polarity is Yang exactly for
even years; and 1990 yields Horse / Metal / Yang. -/
theorem C3_chinese_zodiac (y k : Int) :
    (0 ≤ (y - 4) % 12 ∧ (y - 4) % 12 < 12 ∧
      0 ≤ (y - 4) % 10 ∧ (y - 4) % 10 < 10) ∧
    (chinese_zodiac_year (y + 12)).animal = (chinese_zodiac_year y).animal ∧
    (chinese_zodiac_year (y + 10)).element = (chinese_zodiac_year y).element ∧
    (chinese_zodiac_year (4 + 12 * k)).animal = "Rat" ∧
    (chinese_zodiac_year (4 + 2 * k)).element =
      (chinese_zodiac_year (4 + 2 * k + 1)).element ∧
    (chinese_zodiac_year y).yin_yang = (if y % 2 = 0 then ("Yang") else ("Yin")) ∧
    chinese_zodiac_year 1990 = ⟨("Horse"), ("Metal"), ("Yang")⟩ ∧
    chinese_zodiac (LocalDT.mk 1990 6 15 12 0) = ⟨("Horse"), ("Metal"), ("Yang")⟩ := by
  refine ⟨⟨Int.emod_nonneg _ (by norm_num), Int.emod_lt_of_pos _ (by norm_num),
    Int.emod_nonneg _ (by norm_num), Int.emod_lt_of_pos _ (by norm_num)⟩,
    ?_, ?_, ?_, ?_, rfl, rfl, rfl⟩
  · show cz_animals.getD ((y + 12 - 4) % 12).toNat ("") =
      cz_animals.getD ((y - 4) % 12).toNat ("")
    have h : (y + 12 - 4) % 12 = (y - 4) % 12 := by omega
    rw [h]
  · show cz_elements10.getD ((y + 10 - 4) % 10).toNat ("") =
      cz_elements10.getD ((y - 4) % 10).toNat ("")
    have h : (y + 10 - 4) % 10 = (y - 4) % 10 := by omega
    rw [h]
  · show cz_animals.getD ((4 + 12 * k - 4) % 12).toNat ("") = "Rat"
    have h : (4 + 12 * k - 4) % 12 = 0 := by omega
    rw [h]
    rfl
  · show cz_elements10.getD ((4 + 2 * k - 4) % 10).toNat ("") =
      cz_elements10.getD ((4 + 2 * k + 1 - 4) % 10).toNat ("")
    have h0 : (4 + 2 * k + 1 - 4) % 10 = (4 + 2 * k - 4) % 10 + 1 := by omega
    have h1 : (4 + 2 * k - 4) % 10 = 0 ∨ (4 + 2 * k - 4) % 10 = 2 ∨
        (4 + 2 * k - 4) % 10 = 4 ∨ (4 + 2 * k - 4) % 10 = 6 ∨
        (4 + 2 * k - 4) % 10 = 8 := by omega
    rw [h0]
    rcases h1 with h | h | h | h | h <;> rw [h] <;> rfl

/-- C10: for every year, indexing the doubled 10-entry element table of
`get_facts.py` at `(y - 4) % 10` gives the same element as indexing the
5-entry table of `index.py` at `((y - 4) % 10) // 2`. -/
theorem C10_element_tables_equiv (y : Int) :
    (chinese_zodiac_year y).element = calculate_chinese_zodiac_element y := by
  show cz_elements10.getD ((y - 4) % 10).toNat ("") =
    cz_elements5.getD (((y - 4) % 10).toNat / 2) ("")
  have h0 : 0 ≤ (y - 4) % 10 := Int.emod_nonneg _ (by norm_num)
  have h1 : (y - 4) % 10 < 10 := Int.emod_lt_of_pos _ (by norm_num)
  have h2 : ((y - 4) % 10).toNat < 10 := by omega
  generalize ((y - 4) % 10).toNat = n at h2
  interval_cases n <;> rfl

/-- `get_hd_definition` from `index.py` (lines 519-529): counts the
active centers (the values of the nine-entry `centers` dict, embedded as
a list of Booleans) and bands the count. -/
def get_hd_definition (centers : List Bool) : String :=
  let connected_count := centers.countP (fun b => b)
  if 7 ≤ connected_count then ("Single")
  else if 4 ≤ connected_count then ("Split")
  else ("Triple Split")

/-- C6: for every assignment of active/inactive to the nine centers, the
definition label depends only on the active count, with the exact
banding: at least 7 gives Single, 4 to 6 gives Split, below 4 gives
Triple Split; counts 9, 6, 2 give Single, Split, Triple Split. -/
theorem C6_definition_banding (c c' : List Bool)
    (h9 : c.length = 9) (h9' : c'.length = 9)
    (hcount : c.countP (fun b => b) = c'.countP (fun b => b)) :
    get_hd_definition c = get_hd_definition c' ∧
    (7 ≤ c.countP (fun b => b) → get_hd_definition c = "Single") ∧
    (4 ≤ c.countP (fun b => b) ∧ c.countP (fun b => b) < 7 →
      get_hd_definition c = "Split") ∧
    (c.countP (fun b => b) < 4 → get_hd_definition c = "Triple Split") ∧
    get_hd_definition (List.replicate 9 true) = "Single" ∧
    get_hd_definition (List.replicate 6 true ++ List.replicate 3 false) = "Split" ∧
    get_hd_definition (List.replicate 2 true ++ List.replicate 7 false) =
      "Triple Split" := by
  refine ⟨?_, ?_, ?_, ?_, by decide, by decide, by decide⟩
  · simp only [get_hd_definition]
    rw [hcount]
  · intro h
    simp only [get_hd_definition]
    rw [if_pos h]
  · intro h
    simp only [get_hd_definition]
    rw [if_neg (by omega), if_pos h.1]
  · intro h
    simp only [get_hd_definition]
    rw [if_neg (by omega), if_neg (by omega)]

def c6_nine : List Bool := List.replicate 9 true

theorem C6_witness :
    c6_nine.length = 9 ∧
    c6_nine.countP (fun b => b) = c6_nine.countP (fun b => b) ∧
    get_hd_definition c6_nine = "Single" := by
  refine ⟨by decide, rfl, ?_⟩
  exact (C6_definition_banding c6_nine c6_nine (by decide) (by decide) rfl).2.1
    (by decide)

/-- Python `ord(c.lower())` on the ASCII fragment: uppercase code points
65-90 shift down to 97-122, everything else is unchanged. Names are
embedded as lists of code points; the embedding models the ASCII
semantics of `str.lower` / `str.isalpha` used by the name-numerology
functions of `index.py`. -/
def ordLower (c : Nat) : Nat := if 65 ≤ c ∧ c ≤ 90 then c + 32 else c

/-- Python `c.isalpha()` on the ASCII fragment: the lowercased code point
lies in the range of the letters a-z. -/
def isAsciiAlpha (c : Nat) : Bool := decide (97 ≤ ordLower c ∧ ordLower c ≤ 122)

/-- Code points of the vowel string `"aeiou"` of
`calculate_soul_urge_number` (`index.py` line 783). -/
def vowel_codes : List Nat := [97, 101, 105, 111, 117]

/-- Code points of the consonant string `"bcdfghjklmnpqrstvwxyz"` of
`calculate_personality_number` (`index.py` line 807). -/
def consonant_codes : List Nat :=
  [98, 99, 100, 102, 103, 104, 106, 107, 108, 109, 110,
   112, 113, 114, 115, 116, 118, 119, 120, 121, 122]

/-- `calculate_expression_number` from `index.py` (lines 755-761):
`if not name: return 9`, else sum `ord(c.lower()) - 96` over alphabetic
characters and apply `(s % 9) or 9`. -/
def calculate_expression_number (name : List Nat) : Nat :=
  if name = [] then 9
  else
    let s := ((name.filter isAsciiAlpha).map (fun c => ordLower c - 96)).sum
    if s % 9 = 0 then 9 else s % 9

/-- `calculate_soul_urge_number` from `index.py` (lines 778-785):
`if not name: return 5`, else the same scheme restricted to characters
whose lowercase form is a vowel. -/
def calculate_soul_urge_number (name : List Nat) : Nat :=
  if name = [] then 5
  else
    let s := ((name.filter (fun c => vowel_codes.contains (ordLower c))).map
      (fun c => ordLower c - 96)).sum
    if s % 9 = 0 then 9 else s % 9

/-- `calculate_personality_number` from `index.py` (lines 802-809):
`if not name: return 3`, else the same scheme restricted to characters
whose lowercase form is a consonant. -/
def calculate_personality_number (name : List Nat) : Nat :=
  if name = [] then 3
  else
    let s := ((name.filter (fun c => consonant_codes.contains (ordLower c))).map
      (fun c => ordLower c - 96)).sum
    if s % 9 = 0 then 9 else s % 9

/-- The claim's expression-number formula, stated from the spec's words
for comparison: sum the 1-indexed alphabet positions of all alphabetic
characters, reduce mod 9 with 0 mapped to 9, with no empty-name special
case. -/
def expression_formula (name : List Nat) : Nat :=
  let s := ((name.filter isAsciiAlpha).map (fun c => ordLower c - 96)).sum
  if s % 9 = 0 then 9 else s % 9

/-- The claim's soul-urge formula: the same scheme restricted to vowel
letters. -/
def soul_urge_formula (name : List Nat) : Nat :=
  let s := ((name.filter (fun c => vowel_codes.contains (ordLower c))).map
    (fun c => ordLower c - 96)).sum
  if s % 9 = 0 then 9 else s % 9

/-- The claim's personality formula: the same scheme restricted to
consonant letters. -/
def personality_formula (name : List Nat) : Nat :=
  let s := ((name.filter (fun c => consonant_codes.contains (ordLower c))).map
    (fun c => ordLower c - 96)).sum
  if s % 9 = 0 then 9 else s % 9

/-- C7 counterexample: for the empty name (which reaches these functions,
since `generate_blueprint` defaults `full_name` to the empty string) the
code returns the fixed default 5 for the soul-urge number, while the
claimed formula maps the vowel sum 0 to 9. -/
theorem C7_counterexample :
    ¬ (calculate_soul_urge_number [] = soul_urge_formula []) := by decide

theorem reduce9_range (s : Nat) :
    1 ≤ (if s % 9 = 0 then 9 else s % 9) ∧ (if s % 9 = 0 then 9 else s % 9) ≤ 9 := by
  split <;> omega

/-- C7 (amended): for every nonempty name, the expression, soul-urge and
personality numbers equal the claimed mod-9 formulas over alphabetic,
vowel and consonant characters respectively, and each result lies in
1..9 (for the empty name the code instead returns the fixed defaults
9, 5 and 3, which also lie in 1..9). -/
theorem C7_name_numbers (name : List Nat) (h : name ≠ []) :
    calculate_expression_number name = expression_formula name ∧
    calculate_soul_urge_number name = soul_urge_formula name ∧
    calculate_personality_number name = personality_formula name ∧
    (1 ≤ calculate_expression_number name ∧ calculate_expression_number name ≤ 9) ∧
    (1 ≤ calculate_soul_urge_number name ∧ calculate_soul_urge_number name ≤ 9) ∧
    (1 ≤ calculate_personality_number name ∧
      calculate_personality_number name ≤ 9) := by
  have he : calculate_expression_number name = expression_formula name := by
    simp only [calculate_expression_number, expression_formula, if_neg h]
  have hs : calculate_soul_urge_number name = soul_urge_formula name := by
    simp only [calculate_soul_urge_number, soul_urge_formula, if_neg h]
  have hp : calculate_personality_number name = personality_formula name := by
    simp only [calculate_personality_number, personality_formula, if_neg h]
  refine ⟨he, hs, hp, ?_, ?_, ?_⟩
  · rw [he]
    simp only [expression_formula]
    exact reduce9_range _
  · rw [hs]
    simp only [soul_urge_formula]
    exact reduce9_range _
  · rw [hp]
    simp only [personality_formula]
    exact reduce9_range _

theorem C7_witness :
    ([97] : List Nat) ≠ [] ∧
    (calculate_expression_number [97] = expression_formula [97] ∧
      calculate_soul_urge_number [97] = soul_urge_formula [97] ∧
      calculate_personality_number [97] = personality_formula [97] ∧
      (1 ≤ calculate_expression_number [97] ∧
        calculate_expression_number [97] ≤ 9) ∧
      (1 ≤ calculate_soul_urge_number [97] ∧
        calculate_soul_urge_number [97] ≤ 9) ∧
      (1 ≤ calculate_personality_number [97] ∧
        calculate_personality_number [97] ≤ 9)) :=
  ⟨by decide, C7_name_numbers [97] (by decide)⟩

/-- JSON-shaped values, the output domain of the assembly functions.
Numbers are modelled as exact rationals (the Python floats of the
ephemeris results are abstracted as their real values). -/
inductive JVal where
  | jstr (v : String)
  | jnum (v : ℚ)
  | jarr (vs : List JVal)
  | jobj (fields : List (String × JVal))

def JVal.keys : JVal → List String
  | JVal.jobj fs => fs.map Prod.fst
  | _ => []

def JVal.lookup : JVal → String → Option JVal
  | JVal.jobj fs, k => fs.lookup k
  | _, _ => none

/-- Python `int()` truncation toward zero of a real-valued argument. -/
def py_int (q : ℚ) : Int := if 0 ≤ q then ⌊q⌋ else -⌊-q⌋

/-- Python `%` on reals: `a - b * floor(a / b)` (sign of the divisor). -/
def pymod (a b : ℚ) : ℚ := a - b * ⌊a / b⌋

/-- Python `round(x, 2)`; the ties-to-even detail of float rounding is
abstracted by Mathlib `round`. -/
def round2 (q : ℚ) : ℚ := (round (q * 100) : Int) / 100

/-- Python list indexing `l[i]`: negative indices count from the end and
out-of-range indices raise `IndexError`, modelled as `none`. -/
def py_index (l : List String) (i : Int) : Option String :=
  let j : Int := if i < 0 then i + l.length else i
  if 0 ≤ j ∧ j < (l.length : Int) then some (l.getD j.toNat ("")) else none

/-- The `signs` table of `build_fact_json` (`get_facts.py` lines 68-69). -/
def zodiac_signs : List String :=
  ["Aries", "Taurus", "Gemini", "Cancer", "Leo", "Virgo",
   "Libra", "Scorpio", "Sagittarius", "Capricorn", "Aquarius", "Pisces"]

/-- The sign index `int(longitude / 30)` of `build_fact_json`
(`get_facts.py` lines 71-75). -/
def sign_index (L : ℚ) : Int := py_int (L / 30)

/-- `signs[int(longitude / 30)]` of `build_fact_json`. -/
def sign_of_long (L : ℚ) : Option String := py_index zodiac_signs (sign_index L)

/-- `longitude % 30` of `build_fact_json` (lines 72-76). -/
def deg_in_sign (L : ℚ) : ℚ := pymod L 30

theorem py_index_in_range (l : List String) (i : Int) (h0 : 0 ≤ i)
    (h1 : i < (l.length : Int)) : py_index l i = some (l.getD i.toNat ("")) := by
  simp only [py_index]
  rw [if_neg (show ¬ i < 0 by omega)]
  rw [if_pos ⟨h0, h1⟩]

/-- C4: for every longitude in `[0, 360)` the sign mapping used for the
Sun, Moon and ascendant longitudes in `build_fact_json` is total and
exhaustive: the index is in range for the 12-name table (so taking it
mod 12 changes nothing and the lookup succeeds), the table has 12
distinct entries so exactly one sign is selected, and the degree within
the sign lies in `[0, 30)`. -/
theorem C4_sign_mapping (L : ℚ) (h0 : 0 ≤ L) (h1 : L < 360) :
    0 ≤ sign_index L ∧ sign_index L < 12 ∧ sign_index L % 12 = sign_index L ∧
    sign_of_long L = some (zodiac_signs.getD (sign_index L).toNat ("")) ∧
    zodiac_signs.length = 12 ∧ zodiac_signs.Nodup ∧
    0 ≤ deg_in_sign L ∧ deg_in_sign L < 30 := by
  have hq0 : (0 : ℚ) ≤ L / 30 := by positivity
  have hsi : sign_index L = ⌊L / 30⌋ := by
    simp only [sign_index, py_int, if_pos hq0]
  have hge : 0 ≤ ⌊L / 30⌋ := Int.floor_nonneg.mpr hq0
  have hlt : ⌊L / 30⌋ < 12 := by
    have hq1 : L / 30 < (12 : ℚ) := by
      rw [div_lt_iff₀ (by norm_num : (0 : ℚ) < 30)]
      linarith
    exact_mod_cast Int.floor_lt.mpr (by exact_mod_cast hq1)
  have hfr : deg_in_sign L = 30 * Int.fract (L / 30) := by
    simp only [deg_in_sign, pymod, Int.fract]
    ring
  refine ⟨by omega, by omega, ?_, ?_, by decide, by decide, ?_, ?_⟩
  · rw [hsi]
    exact Int.emod_eq_of_lt hge hlt
  · have hlen : ((zodiac_signs.length : Nat) : Int) = 12 := by
      norm_num [zodiac_signs]
    simp only [sign_of_long]
    rw [hsi]
    exact py_index_in_range _ _ hge (by omega)
  · rw [hfr]
    have := Int.fract_nonneg (L / 30)
    linarith
  · rw [hfr]
    have := Int.fract_lt_one (L / 30)
    linarith

theorem C4_witness :
    (0 : ℚ) ≤ 45 ∧ (45 : ℚ) < 360 ∧
    (0 ≤ sign_index 45 ∧ sign_index 45 < 12 ∧ sign_index 45 % 12 = sign_index 45 ∧
      sign_of_long 45 = some (zodiac_signs.getD (sign_index 45).toNat ("")) ∧
      zodiac_signs.length = 12 ∧ zodiac_signs.Nodup ∧
      0 ≤ deg_in_sign 45 ∧ deg_in_sign 45 < 30) :=
  ⟨by norm_num, by norm_num, C4_sign_mapping 45 (by norm_num) (by norm_num)⟩

/-- Geocoding result of `geocode(city, country)` in `get_facts.py`:
latitude, longitude, display name of the first nominatim match. -/
structure GeoResult where
  lat : ℚ
  lon : ℚ
  display_name : String

/-- The swisseph longitudes read by `build_fact_json` for a UTC instant
and topocentric position: `calc_ut(jd, SUN)[0]`, `calc_ut(jd, MOON)[0]`
and `houses_ex(jd, lat, lon, b"P", 0)[0][0]`. -/
structure EphemerisSample where
  sun_long : ℚ
  moon_long : ℚ
  asc : ℚ

/-- The fields of the `hdkit.BodyGraph` object read by `build_fact_json`. -/
structure BodyGraph where
  type : String
  strategy : String
  authority : String
  profile : String
  cross : String
  definition : String
  channels : List String
  gates : List String

def pad2 (n : Nat) : String :=
  if n < 10 then (("0") ++ toString n) else toString n

def pad4 (n : Nat) : String :=
  if n < 10 then (("000") ++ toString n)
  else if n < 100 then (("00") ++ toString n)
  else if n < 1000 then (("0") ++ toString n)
  else toString n

/-- `datetime.isoformat()` of a minute-precision datetime. -/
def isoformat (d : LocalDT) : String :=
  pad4 d.year ++ "-" ++ pad2 d.month ++ "-" ++ pad2 d.day ++ "T" ++
    pad2 d.hour ++ ":" ++ pad2 d.minute ++ ":00"


theorem sign_of_long_in_range (L : ℚ) (h0 : 0 ≤ L) (h1 : L < 360) :
    sign_of_long L = some (zodiac_signs.getD (sign_index L).toNat ("")) := by
  have hq0 : (0 : ℚ) ≤ L / 30 := by positivity
  have hsi : sign_index L = ⌊L / 30⌋ := by
    simp only [sign_index, py_int, if_pos hq0]
  have hge : 0 ≤ ⌊L / 30⌋ := Int.floor_nonneg.mpr hq0
  have hlt : ⌊L / 30⌋ < 12 := by
    have hq1 : L / 30 < (12 : ℚ) := by
      rw [div_lt_iff₀ (by norm_num : (0 : ℚ) < 30)]
      linarith
    exact_mod_cast Int.floor_lt.mpr (by exact_mod_cast hq1)
  have hlen : ((zodiac_signs.length : Nat) : Int) = 12 := by
    norm_num [zodiac_signs]
  simp only [sign_of_long]
  rw [hsi]
  exact py_index_in_range _ _ hge (by omega)

/-- `build_fact_json` from `get_facts.py` (lines 49-117). The date and
time strings are taken already parsed (`local_dt`); the network and
library collaborators, whose code is not in this repository, are oracle
parameters: `geo` for `geocode`, `offset` for `utc_offset`, `dtSub` for
`datetime` minus `timedelta(seconds=offset)`, `eph` for the swisseph
longitudes at the UTC instant and coordinates, `bgOf` for
`hdkit.BodyGraph.from_datetime`. An `IndexError` from the sign table
(longitude out of range) aborts the call (`none`). -/
def build_fact_json (name : String) (local_dt : LocalDT) (geo : GeoResult)
    (offset : Int) (dtSub : LocalDT → Int → LocalDT)
    (eph : LocalDT → ℚ → ℚ → EphemerisSample)
    (bgOf : LocalDT → ℚ → ℚ → BodyGraph) (mbti : Option String) :
    Option JVal :=
  match sign_of_long (eph (dtSub local_dt offset) geo.lat geo.lon).sun_long,
      sign_of_long (eph (dtSub local_dt offset) geo.lat geo.lon).moon_long,
      sign_of_long (eph (dtSub local_dt offset) geo.lat geo.lon).asc with
  | some sun_sign, some moon_sign, some asc_sign =>
    some (JVal.jobj
      [("name", JVal.jstr name),
       ("birth", JVal.jobj
         [("local", JVal.jstr (isoformat local_dt)),
          ("utc", JVal.jstr (isoformat (dtSub local_dt offset))),
          ("lat", JVal.jnum geo.lat),
          ("lon", JVal.jnum geo.lon),
          ("location", JVal.jstr geo.display_name)]),
       ("western", JVal.jobj
         [("sun_sign", JVal.jstr sun_sign),
          ("sun_deg", JVal.jnum (round2 (deg_in_sign
            (eph (dtSub local_dt offset) geo.lat geo.lon).sun_long))),
          ("moon_sign", JVal.jstr moon_sign),
          ("moon_deg", JVal.jnum (round2 (deg_in_sign
            (eph (dtSub local_dt offset) geo.lat geo.lon).moon_long))),
          ("ascendant_sign", JVal.jstr asc_sign),
          ("asc_deg", JVal.jnum (round2 (deg_in_sign
            (eph (dtSub local_dt offset) geo.lat geo.lon).asc))),
          ("raw", JVal.jobj
            [("sun_long", JVal.jnum
               (eph (dtSub local_dt offset) geo.lat geo.lon).sun_long),
             ("moon_long", JVal.jnum
               (eph (dtSub local_dt offset) geo.lat geo.lon).moon_long),
             ("asc_long", JVal.jnum
               (eph (dtSub local_dt offset) geo.lat geo.lon).asc)])]),
       ("chinese", JVal.jobj
         [("animal", JVal.jstr (chinese_zodiac local_dt).animal),
          ("element", JVal.jstr (chinese_zodiac local_dt).element),
          ("yin_yang", JVal.jstr (chinese_zodiac local_dt).yin_yang)]),
       ("numerology", JVal.jobj
         [("life_path", JVal.jnum (life_path local_dt : ℚ))]),
       ("human_design", JVal.jobj
         [("type", JVal.jstr (bgOf (dtSub local_dt offset) geo.lat geo.lon).type),
          ("strategy", JVal.jstr
            (bgOf (dtSub local_dt offset) geo.lat geo.lon).strategy),
          ("authority", JVal.jstr
            (bgOf (dtSub local_dt offset) geo.lat geo.lon).authority),
          ("profile", JVal.jstr
            (bgOf (dtSub local_dt offset) geo.lat geo.lon).profile),
          ("incarnation_cross", JVal.jstr
            (bgOf (dtSub local_dt offset) geo.lat geo.lon).cross),
          ("definition", JVal.jstr
            (bgOf (dtSub local_dt offset) geo.lat geo.lon).definition),
          ("channels", JVal.jarr
            ((bgOf (dtSub local_dt offset) geo.lat geo.lon).channels.map
              JVal.jstr)),
          ("gates", JVal.jarr
            ((bgOf (dtSub local_dt offset) geo.lat geo.lon).gates.map
              JVal.jstr))]),
       ("mbti", JVal.jstr (mbti.getD ("")))])
  | _, _, _ => none

theorem build_fact_json_isSome (name : String) (local_dt : LocalDT)
    (geo : GeoResult) (offset : Int) (dtSub : LocalDT → Int → LocalDT)
    (eph : LocalDT → ℚ → ℚ → EphemerisSample)
    (bgOf : LocalDT → ℚ → ℚ → BodyGraph) (mbti : Option String)
    (h1 : 0 ≤ (eph (dtSub local_dt offset) geo.lat geo.lon).sun_long)
    (h2 : (eph (dtSub local_dt offset) geo.lat geo.lon).sun_long < 360)
    (h3 : 0 ≤ (eph (dtSub local_dt offset) geo.lat geo.lon).moon_long)
    (h4 : (eph (dtSub local_dt offset) geo.lat geo.lon).moon_long < 360)
    (h5 : 0 ≤ (eph (dtSub local_dt offset) geo.lat geo.lon).asc)
    (h6 : (eph (dtSub local_dt offset) geo.lat geo.lon).asc < 360) :
    build_fact_json name local_dt geo offset dtSub eph bgOf mbti =
      some ((build_fact_json name local_dt geo offset dtSub eph bgOf
        mbti).getD (JVal.jobj [])) := by
  unfold build_fact_json
  rw [sign_of_long_in_range _ h1 h2, sign_of_long_in_range _ h3 h4,
    sign_of_long_in_range _ h5 h6]
  rfl

/-- C2: whenever `build_fact_json` succeeds, its record has exactly the
canonical top-level keys name, birth, western, chinese, numerology,
human_design, mbti, the documented nested keys under birth, western,
western.raw, chinese, numerology and human_design, and the mbti field
equals the supplied MBTI code, or the empty string when none is given. -/
theorem C2_fact_record_shape (name : String) (local_dt : LocalDT)
    (geo : GeoResult) (offset : Int) (dtSub : LocalDT → Int → LocalDT)
    (eph : LocalDT → ℚ → ℚ → EphemerisSample)
    (bgOf : LocalDT → ℚ → ℚ → BodyGraph) (mbti : Option String) (j : JVal)
    (h : build_fact_json name local_dt geo offset dtSub eph bgOf mbti = some j) :
    j.keys = ["name", "birth", "western", "chinese", "numerology",
      "human_design", "mbti"] ∧
    (j.lookup ("birth")).map JVal.keys =
      some ["local", "utc", "lat", "lon", "location"] ∧
    (j.lookup ("western")).map JVal.keys =
      some ["sun_sign", "sun_deg", "moon_sign", "moon_deg",
        "ascendant_sign", "asc_deg", "raw"] ∧
    ((j.lookup ("western")).bind (fun w => w.lookup ("raw"))).map JVal.keys =
      some ["sun_long", "moon_long", "asc_long"] ∧
    (j.lookup ("chinese")).map JVal.keys =
      some ["animal", "element", "yin_yang"] ∧
    (j.lookup ("numerology")).map JVal.keys = some ["life_path"] ∧
    (j.lookup ("human_design")).map JVal.keys =
      some ["type", "strategy", "authority", "profile", "incarnation_cross",
        "definition", "channels", "gates"] ∧
    j.lookup ("mbti") = some (JVal.jstr (mbti.getD (""))) := by
  unfold build_fact_json at h
  split at h
  · simp only [Option.some.injEq] at h
    subst h
    exact ⟨rfl, rfl, rfl, rfl, rfl, rfl, rfl, rfl⟩
  · cases h

def w_dt : LocalDT := LocalDT.mk 1990 1 1 12 0

def w_geo : GeoResult := GeoResult.mk 40 (-74) ("New York")

def w_sub : LocalDT → Int → LocalDT :=
  fun d off => if off = 0 then d else LocalDT.mk 1989 12 31 23 0

def w_eph : LocalDT → ℚ → ℚ → EphemerisSample :=
  fun _ _ _ => EphemerisSample.mk 90 120 300

def w_bg : LocalDT → ℚ → ℚ → BodyGraph :=
  fun _ _ _ => BodyGraph.mk ("Generator") ("Wait to respond") ("Emotional")
    ("3/5") ("Right Angle Cross") ("Single") [] []

def w_j : JVal :=
  (build_fact_json ("Test User") w_dt w_geo 18000 w_sub w_eph w_bg
    (some ("INFJ"))).getD (JVal.jobj [])

theorem C2_witness :
    build_fact_json ("Test User") w_dt w_geo 18000 w_sub w_eph w_bg
      (some ("INFJ")) = some w_j ∧
    (w_j.keys = ["name", "birth", "western", "chinese", "numerology",
      "human_design", "mbti"] ∧
    (w_j.lookup ("birth")).map JVal.keys =
      some ["local", "utc", "lat", "lon", "location"] ∧
    (w_j.lookup ("western")).map JVal.keys =
      some ["sun_sign", "sun_deg", "moon_sign", "moon_deg",
        "ascendant_sign", "asc_deg", "raw"] ∧
    ((w_j.lookup ("western")).bind (fun w => w.lookup ("raw"))).map JVal.keys =
      some ["sun_long", "moon_long", "asc_long"] ∧
    (w_j.lookup ("chinese")).map JVal.keys =
      some ["animal", "element", "yin_yang"] ∧
    (w_j.lookup ("numerology")).map JVal.keys = some ["life_path"] ∧
    (w_j.lookup ("human_design")).map JVal.keys =
      some ["type", "strategy", "authority", "profile", "incarnation_cross",
        "definition", "channels", "gates"] ∧
    w_j.lookup ("mbti") = some (JVal.jstr ((some ("INFJ")).getD (""))) ) := by
  have hb : build_fact_json ("Test User") w_dt w_geo 18000 w_sub w_eph w_bg
      (some ("INFJ")) = some w_j :=
    build_fact_json_isSome _ _ _ _ _ _ _ _
      (by norm_num [w_eph]) (by norm_num [w_eph]) (by norm_num [w_eph])
      (by norm_num [w_eph]) (by norm_num [w_eph]) (by norm_num [w_eph])
  exact ⟨hb, C2_fact_record_shape _ _ _ _ _ _ _ _ _ hb⟩

/-- C9: the chinese and numerology sub-records depend only on the parsed
local birth datetime: two runs of `build_fact_json` with the same name,
local datetime and mbti but arbitrarily different geocoding results,
timezone offsets, datetime arithmetic and ephemeris/bodygraph oracles
(so in particular even when the UTC conversion lands in a different day
or year) produce identical chinese sub-records and identical numerology
sub-records. -/
theorem C9_local_only (name : String) (local_dt : LocalDT)
    (mbti : Option String) (geo geo' : GeoResult) (offset offset' : Int)
    (dtSub dtSub' : LocalDT → Int → LocalDT)
    (eph eph' : LocalDT → ℚ → ℚ → EphemerisSample)
    (bgOf bgOf' : LocalDT → ℚ → ℚ → BodyGraph) (j j' : JVal)
    (h : build_fact_json name local_dt geo offset dtSub eph bgOf mbti = some j)
    (h' : build_fact_json name local_dt geo' offset' dtSub' eph' bgOf' mbti =
      some j') :
    j.lookup ("chinese") = j'.lookup ("chinese") ∧
    j.lookup ("numerology") = j'.lookup ("numerology") := by
  unfold build_fact_json at h h'
  split at h
  · split at h'
    · simp only [Option.some.injEq] at h h'
      subst h
      subst h'
      exact ⟨rfl, rfl⟩
    · cases h'
  · cases h

def w9_geo : GeoResult := GeoResult.mk 52 5 ("Amsterdam")

def w9_eph : LocalDT → ℚ → ℚ → EphemerisSample :=
  fun _ _ _ => EphemerisSample.mk 10 50 200

def w9_j1 : JVal :=
  (build_fact_json ("A") w_dt w_geo 18000 w_sub w_eph w_bg none).getD
    (JVal.jobj [])

def w9_j2 : JVal :=
  (build_fact_json ("A") w_dt w9_geo 0 w_sub w9_eph w_bg none).getD
    (JVal.jobj [])

theorem C9_witness :
    build_fact_json ("A") w_dt w_geo 18000 w_sub w_eph w_bg none = some w9_j1 ∧
    build_fact_json ("A") w_dt w9_geo 0 w_sub w9_eph w_bg none = some w9_j2 ∧
    (w9_j1.lookup ("chinese") = w9_j2.lookup ("chinese") ∧
      w9_j1.lookup ("numerology") = w9_j2.lookup ("numerology")) := by
  have hb1 : build_fact_json ("A") w_dt w_geo 18000 w_sub w_eph w_bg none =
      some w9_j1 :=
    build_fact_json_isSome _ _ _ _ _ _ _ _
      (by norm_num [w_eph]) (by norm_num [w_eph]) (by norm_num [w_eph])
      (by norm_num [w_eph]) (by norm_num [w_eph]) (by norm_num [w_eph])
  have hb2 : build_fact_json ("A") w_dt w9_geo 0 w_sub w9_eph w_bg none =
      some w9_j2 :=
    build_fact_json_isSome _ _ _ _ _ _ _ _
      (by norm_num [w9_eph]) (by norm_num [w9_eph]) (by norm_num [w9_eph])
      (by norm_num [w9_eph]) (by norm_num [w9_eph]) (by norm_num [w9_eph])
  exact ⟨hb1, hb2, C9_local_only _ _ _ _ _ _ _ _ _ _ _ _ _ _ _ hb1 hb2⟩

/-- The except-clause record of `calculate_astrology` (`index.py` lines
213-219). -/
def astrology_error_fallback (e : String) : JVal :=
  JVal.jobj
    [("sun_sign", JVal.jstr ("Unknown")),
     ("moon_sign", JVal.jstr ("Unknown")),
     ("rising_sign", JVal.jstr ("Unknown")),
     ("error", JVal.jstr e),
     ("calculation_method", JVal.jstr ("error-fallback"))]

/-- The except-clause record of `calculate_human_design` (`index.py`
lines 498-506). -/
def human_design_error_fallback (e : String) : JVal :=
  JVal.jobj
    [("type", JVal.jstr ("Generator")),
     ("profile", JVal.jstr ("3/5 (Martyr/Heretic)")),
     ("authority", JVal.jstr ("Emotional")),
     ("strategy", JVal.jstr ("Wait to respond")),
     ("definition", JVal.jstr ("Split")),
     ("not_self_theme", JVal.jstr ("Frustration")),
     ("error", JVal.jstr e)]

/-- `get_default_numerology` (`index.py` lines 871-887), returned when the
numerology calculation fails. -/
def get_default_numerology : JVal :=
  JVal.jobj
    [("life_path_number", JVal.jnum 7),
     ("life_path_keyword", JVal.jstr ("Seeker of Truth")),
     ("life_path_description", JVal.jstr ("Analytical, spiritual truth-seeker. You have a deep need to understand the mysteries of life.")),
     ("birth_day_number", JVal.jnum 1),
     ("birth_day_meaning", JVal.jstr ("Complex personality with unique talents and perspectives")),
     ("personal_year", JVal.jnum 1),
     ("expression_number", JVal.jnum 9),
     ("expression_keyword", JVal.jstr ("Humanitarian")),
     ("soul_urge_number", JVal.jnum 5),
     ("soul_urge_keyword", JVal.jstr ("Freedom Seeker")),
     ("personality_number", JVal.jnum 3),
     ("calculation_method", JVal.jstr ("fallback"))]

/-- `get_default_chinese_zodiac` (`index.py` lines 889-904), returned when
the Chinese zodiac calculation fails. -/
def get_default_chinese_zodiac : JVal :=
  JVal.jobj
    [("animal", JVal.jstr ("Horse")),
     ("element", JVal.jstr ("Fire")),
     ("yin_yang", JVal.jstr ("Yang")),
     ("keyword", JVal.jstr ("Free-spirited Explorer")),
     ("element_characteristic", JVal.jstr ("Passionate, adventurous, and dynamic. Fire brings enthusiasm and leadership qualities.")),
     ("personality_profile", JVal.jstr ("As a Fire Horse, you combine the natural qualities of the horse with the fire element\x27s transformative energy.")),
     ("compatibility", JVal.jobj
       [("best", JVal.jarr [JVal.jstr ("Tiger"), JVal.jstr ("Dog")]),
        ("worst", JVal.jarr [JVal.jstr ("Rat"), JVal.jstr ("Ox")])]),
     ("calculation_method", JVal.jstr ("fallback"))]

/-- `calculate_astrology` (`index.py` lines 164-219): the try body is
abstracted as an oracle outcome (its value depends on inputs parsed
inside the body); any Python exception escaping the body is caught by
the except clause, which returns the documented fallback record instead
of re-raising. -/
def calculate_astrology (body : Except String JVal) : JVal :=
  match body with
  | Except.ok r => r
  | Except.error e => astrology_error_fallback e

/-- `calculate_numerology` (`index.py` lines 221-262): the except clause
(and the invalid-date early returns) yield `get_default_numerology`. -/
def calculate_numerology (body : Except String JVal) : JVal :=
  match body with
  | Except.ok r => r
  | Except.error _ => get_default_numerology

/-- `calculate_human_design` (`index.py` lines 420-506): the outer except
clause returns the fixed Generator/Emotional fallback record. -/
def calculate_human_design (body : Except String JVal) : JVal :=
  match body with
  | Except.ok r => r
  | Except.error e => human_design_error_fallback e

/-- `calculate_chinese_zodiac` (`index.py` lines 553-604): the except
clause (and the invalid-date early returns) yield
`get_default_chinese_zodiac`. -/
def calculate_chinese_zodiac (body : Except String JVal) : JVal :=
  match body with
  | Except.ok r => r
  | Except.error _ => get_default_chinese_zodiac

structure UserMeta where
  full_name : String
  preferred_name : String
  birth_date : String
  birth_time_local : String
  birth_location : String

/-- `generate_blueprint` (`index.py` lines 69-137): assembles the
blueprint from the four calculator outcomes; `mbtiProfile` stands for
`generate_mbti_profile(mbti)` and `timestamp` for the wall-clock
`datetime.now(pytz.UTC).isoformat()`. -/
def generate_blueprint (meta : UserMeta) (mbtiProfile : JVal)
    (timestamp : String) (astro numer hd chin : Except String JVal) : JVal :=
  JVal.jobj
    [("user_meta", JVal.jobj
       [("full_name", JVal.jstr meta.full_name),
        ("preferred_name", JVal.jstr meta.preferred_name),
        ("birth_date", JVal.jstr meta.birth_date),
        ("birth_time_local", JVal.jstr meta.birth_time_local),
        ("birth_location", JVal.jstr meta.birth_location)]),
     ("cognition_mbti", mbtiProfile),
     ("energy_strategy_human_design", calculate_human_design hd),
     ("values_life_path", calculate_numerology numer),
     ("archetype_western", calculate_astrology astro),
     ("archetype_chinese", calculate_chinese_zodiac chin),
     ("calculation_method", JVal.jstr ("python-swiss-ephemeris-direct")),
     ("engine_version", JVal.jstr ("1.0.0")),
     ("calculation_timestamp", JVal.jstr timestamp)]

/-- C5: an unexpected failure inside any one of the four symbolic
calculators does not abort the pipeline entry point: `generate_blueprint`
always assembles its record, with each calculator's section equal to
that calculator's own handled outcome, a failing calculator's section
equal to its documented fallback sub-record, and a succeeding
calculator's section equal to its computed result regardless of the
other outcomes. -/
theorem C5_calculator_fallbacks (meta : UserMeta) (mbtiProfile : JVal)
    (timestamp : String) (astro numer hd chin : Except String JVal)
    (e : String) :
    ((generate_blueprint meta mbtiProfile timestamp astro numer hd chin).lookup
        ("archetype_western") = some (calculate_astrology astro) ∧
      (generate_blueprint meta mbtiProfile timestamp astro numer hd chin).lookup
        ("values_life_path") = some (calculate_numerology numer) ∧
      (generate_blueprint meta mbtiProfile timestamp astro numer hd chin).lookup
        ("energy_strategy_human_design") = some (calculate_human_design hd) ∧
      (generate_blueprint meta mbtiProfile timestamp astro numer hd chin).lookup
        ("archetype_chinese") = some (calculate_chinese_zodiac chin)) ∧
    (calculate_astrology (Except.error e) = astrology_error_fallback e ∧
      calculate_numerology (Except.error e) = get_default_numerology ∧
      calculate_human_design (Except.error e) = human_design_error_fallback e ∧
      calculate_chinese_zodiac (Except.error e) = get_default_chinese_zodiac) ∧
    (∀ r : JVal, calculate_astrology (Except.ok r) = r ∧
      calculate_numerology (Except.ok r) = r ∧
      calculate_human_design (Except.ok r) = r ∧
      calculate_chinese_zodiac (Except.ok r) = r) :=
  ⟨⟨rfl, rfl, rfl, rfl⟩, ⟨rfl, rfl, rfl, rfl⟩, fun _ => ⟨rfl, rfl, rfl, rfl⟩⟩
